import Mathlib

/-!
Verification of the Weenix kernel slice (boot header, fork, mmap/munmap,
open, S5FS entry points) against its natural-language specification.

The definitions below are shallow embeddings of the C functions in
`src/kernel/`.  Machine integers are modelled as `Nat`/`Int` with explicit
reduction modulo `2^32` where 32-bit wraparound matters.  Subroutines that
belong to the repository but are not part of the given source slice
(`vmmap_map`, `vmmap_remove`, `s5_seek_to_block`, `do_close`, ...) are
modelled from the specification text and are marked as such in their doc
comments.
-/

namespace Weenix

/-! ## Numeric constants

Error numbers follow the Linux-style `errno.h` used by the kernel
(spec §7 fixes the taxonomy; the numeric values are the conventional ones). -/

def EINVAL : Int := 22
def EBADF : Int := 9
def EACCES : Int := 13
def ENOMEM : Int := 12
def EMFILE : Int := 24
def ENAMETOOLONG : Int := 36
def ENOTDIR : Int := 20
def ENOTEMPTY : Int := 39
def ENOENT : Int := 2
def EISDIR : Int := 21
def ENOSPC : Int := 28

/-- Pages of 4 KiB (spec §6: 4 KiB blocks; `PAGE_SIZE` in `mm/page.h`). -/
def PAGE_SIZE : Nat := 4096

/-- Modelled from the spec: the user virtual range `[USER_LOW, USER_HIGH)`
(`USER_MEM_LOW` in the kernel headers, which are not in the source slice). -/
def USER_MEM_LOW : Nat := 0x00400000

/-- Modelled from the spec: upper end of the user virtual range
(`USER_MEM_HIGH` in the kernel headers, not in the source slice). -/
def USER_MEM_HIGH : Nat := 0xc0000000

/-! ## C9 — the multiboot header (`src/kernel/boot/boot.S` lines 10-18)

`multiboot.h` is not part of the source slice; the constants are the
multiboot-standard values the spec refers to (§6 Boot). -/

/-- Modelled from the spec: multiboot magic from `multiboot.h`. -/
def MULTIBOOT_HEADER_MAGIC : Nat := 0x1BADB002

/-- Modelled from the spec: request for page-aligned modules. -/
def MULTIBOOT_PAGE_ALIGN : Nat := 1

/-- Modelled from the spec: request for the memory map. -/
def MULTIBOOT_MEMORY_INFO : Nat := 2

/-- The `boot.S`: `.set FLAGS, MULTIBOOT_PAGE_ALIGN | MULTIBOOT_MEMORY_INFO`. -/
def multibootFlags : Nat := MULTIBOOT_PAGE_ALIGN ||| MULTIBOOT_MEMORY_INFO

/-- The `boot.S`: `.set CHECKSUM, -(MULTIBOOT_HEADER_MAGIC + FLAGS)`, a 32-bit
two's-complement negation. -/
def multibootChecksum : Nat :=
  (2 ^ 32 - (MULTIBOOT_HEADER_MAGIC + multibootFlags) % 2 ^ 32) % 2 ^ 32

/-- The `boot.S` lines 14-18: the `.multiboot` section emits the three words
magic, flags, checksum, in that order. -/
def multibootHeader : List Nat :=
  [MULTIBOOT_HEADER_MAGIC, multibootFlags, multibootChecksum]

/-! ## S5FS block model (`src/kernel/fs/s5fs/s5fs.c`)

The on-disk subroutines (`s5_seek_to_block`, ...) live in `s5fs_subr.c`,
which is outside the given source slice; they are modelled from spec §4.8. -/

/-- The `S5_BLOCK_SIZE` (spec §3/§6: 4 KiB blocks). -/
def S5_BLOCK_SIZE : Nat := 4096

/-- The `S5_NAME_LEN` (spec §3: fixed-size directory-entry name field; the
header defining the constant is not in the source slice). -/
def S5_NAME_LEN : Nat := 28

/-- Modelled from the spec: the block map of one inode — `NDIRECT` direct
block slots; `none` in a slot is a sparse hole (spec §3, §4.8). -/
structure S5Inode where
  blocks : List (Option Nat)
deriving DecidableEq

/-- Modelled from the spec: the file-system state a block allocation
touches — one inode's block map and the superblock's free-block list
(spec §3, §4.8). -/
structure S5State where
  inode : S5Inode
  freeBlocks : List Nat
deriving DecidableEq

/-- Block slot covering a byte offset. -/
def blockIndex (off : Nat) : Nat := off / S5_BLOCK_SIZE

/-- Modelled from the spec: `s5_seek_to_block(vnode, offset, alloc)`
(spec §4.8): translate a byte offset to a disk block number; with
`alloc = false` return `0` for a sparse hole; with `alloc = true`
allocate a free block, install it in the slot, or fail with `-ENOSPC`
when the free list is exhausted. -/
def s5_seek_to_block (st : S5State) (off : Nat) (alloc : Bool) :
    Int × S5State :=
  match st.inode.blocks.getD (blockIndex off) none with
  | some b => ((b : Int), st)
  | none =>
      if alloc then
        match st.freeBlocks with
        | [] => (-ENOSPC, st)
        | b :: rest =>
            ((b : Int),
             ⟨⟨st.inode.blocks.set (blockIndex off) (some b)⟩, rest⟩)
      else (0, st)

/-- The offset lies in a sparse region: no disk block is allocated for it. -/
def sparseAt (st : S5State) (off : Nat) : Prop :=
  st.inode.blocks.getD (blockIndex off) none = none

instance (st : S5State) (off : Nat) : Decidable (sparseAt st off) := by
  unfold sparseAt; infer_instance

/-- The `s5fs_dirtypage` (s5fs.c lines 667-680): probe with `alloc = 0`; if the
result is `≤ 0` return it with the state untouched, otherwise seek again
with `alloc = 1` and return that result. -/
def s5fs_dirtypage (st : S5State) (off : Nat) : Int × S5State :=
  let status := (s5_seek_to_block st off false).1
  if status ≤ 0 then (status, st)
  else s5_seek_to_block st off true

/-- The `s5fs_fillpage` (s5fs.c lines 633-651), parameterized over the
`s5_seek_to_block` outcome (the subroutine is outside the slice) and the
device's `read_block` contents; the source passes `alloc = 0` and the
block-device read entry point does not fail (comment in `s5fs_umount`).
Returns the status and the resulting page buffer. -/
def s5fs_fillpage (seek : Nat → Bool → Int) (readBlock : Nat → List Nat)
    (off : Nat) (pagebuf : List Nat) : Int × List Nat :=
  let block_no := seek off false
  if block_no < 0 then (block_no, pagebuf)
  else if block_no ≠ 0 then (0, readBlock block_no.toNat)
  else (0, List.replicate S5_BLOCK_SIZE 0)

/-! ## S5FS namespace entry points (`src/kernel/fs/s5fs/s5fs.c`)

The subroutines the entry points call (`s5_alloc_inode`, `s5_link`,
`s5_find_dirent`, `s5_remove_dirent`, `s5_read_file`, `vget`, `vput`,
`kmutex_lock`/`unlock`) are in `s5fs_subr.c` / the VFS core, outside the
source slice.  The entry points are embedded over an abstract state `St`
and an environment of those subroutines, so that anything proved holds for
every possible implementation of the missing code.  Vnodes are identified
by their inode number (spec §3: at most one vnode per `(fs, ino)`).
Execution that does not return (a failed `KASSERT`/`panic`, or an
infinite loop, cut off by fuel) is `none`. -/

/-- Inode type tags (`s5fs.h`, not in the slice; values are the
conventional ones, only their distinctness matters). -/
def S5_TYPE_DATA : Nat := 1

/-- Directory inode type tag. -/
def S5_TYPE_DIR : Nat := 2

/-- Character-device inode type tag. -/
def S5_TYPE_CHR : Nat := 3

/-- Block-device inode type tag. -/
def S5_TYPE_BLK : Nat := 4

/-- The `S_IFMT` file-type mask (`fs/stat.h`, not in the slice). -/
def S_IFMT : Nat := 0xF000

/-- The `S_IFCHR` character-device mode bits. -/
def S_IFCHR : Nat := 0x2000

/-- The `S_IFBLK` block-device mode bits. -/
def S_IFBLK : Nat := 0x6000

/-- The `S_ISCHR(mode)`. -/
def S_ISCHR (mode : Nat) : Bool := mode &&& S_IFMT == S_IFCHR

/-- The `S_ISBLK(mode)`. -/
def S_ISBLK (mode : Nat) : Bool := mode &&& S_IFMT == S_IFBLK

/-- One directory entry as the `rmdir` loop sees it: inode number and
name (spec §3: fixed-size records `{inode_no, name[S5_NAME_LEN]}`). -/
structure DirEnt where
  d_ino : Nat
  d_name : String
deriving DecidableEq

/-- Size in bytes of one directory-entry record as read by
`s5fs_readdir` (a fixed positive constant; its exact value is immaterial
to the claims). -/
def sizeofDirent : Nat := 32

/-- The environment of repository subroutines that are outside the source
slice, over an abstract kernel state `St`.  `s5_read_file` takes the
caller's entry buffer and returns it unchanged when nothing is read. -/
structure S5Env (St : Type) where
  kmutex_lock : Nat → St → St
  kmutex_unlock : Nat → St → St
  s5_alloc_inode : Nat → Nat → St → Int × St
  vget : Nat → St → St
  vput : Nat → St → St
  s5_link : Nat → Nat → String → Nat → St → Int × St
  s5_find_dirent : Nat → String → Nat → St → Int × St
  s5_remove_dirent : Nat → String → Nat → St → Int × St
  s5_read_file : Nat → Nat → DirEnt → St → Int × DirEnt × St

/-- The `s5fs_create` (s5fs.c lines 362-381): name-length guard, lock, allocate
a data inode (failure unlocks and propagates), `vget` the new inode, link
it under `name`, unlock, return the link status. -/
def s5fs_create {St : Type} (env : S5Env St) (dir : Nat) (devid : Nat)
    (name : String) (namelen : Nat) (st : St) : Int × St :=
  if namelen > S5_NAME_LEN then (-ENAMETOOLONG, st)
  else
    let st := env.kmutex_lock dir st
    let p := env.s5_alloc_inode S5_TYPE_DATA devid st
    if p.1 < 0 then (p.1, env.kmutex_unlock dir p.2)
    else
      let st := env.vget p.1.toNat p.2
      let q := env.s5_link dir p.1.toNat name namelen st
      (q.1, env.kmutex_unlock dir q.2)

/-- The `s5fs_mknod` (s5fs.c lines 391-413): name-length guard, lock, decode
the device type (`panic` on any other mode — modelled as `none`), allocate
the inode, `vget`, link, unlock. -/
def s5fs_mknod {St : Type} (env : S5Env St) (dir : Nat) (name : String)
    (namelen : Nat) (mode : Nat) (devid : Nat) (st : St) :
    Option (Int × St) :=
  if namelen > S5_NAME_LEN then some (-ENAMETOOLONG, st)
  else
    let st := env.kmutex_lock dir st
    if S_ISCHR mode ∨ S_ISBLK mode then
      let ty := if S_ISCHR mode then S5_TYPE_CHR else S5_TYPE_BLK
      let p := env.s5_alloc_inode ty devid st
      if p.1 < 0 then some (p.1, env.kmutex_unlock dir p.2)
      else
        let st := env.vget p.1.toNat p.2
        let q := env.s5_link dir p.1.toNat name namelen st
        some (q.1, env.kmutex_unlock dir q.2)
    else none

/-- The `s5fs_lookup` (s5fs.c lines 420-435): name-length guard, lock, find the
entry (failure unlocks and propagates), `vget` the found inode, unlock,
return `0`. -/
def s5fs_lookup {St : Type} (env : S5Env St) (base : Nat) (name : String)
    (namelen : Nat) (st : St) : Int × St :=
  if namelen > S5_NAME_LEN then (-ENAMETOOLONG, st)
  else
    let st := env.kmutex_lock base st
    let p := env.s5_find_dirent base name namelen st
    if p.1 < 0 then (p.1, env.kmutex_unlock base p.2)
    else
      let st := env.vget p.1.toNat p.2
      (0, env.kmutex_unlock base st)

/-- The `s5fs_link` (s5fs.c lines 445-456): name-length guard, lock source then
directory, `s5_link`, unlock both. -/
def s5fs_link {St : Type} (env : S5Env St) (src : Nat) (dir : Nat)
    (name : String) (namelen : Nat) (st : St) : Int × St :=
  if namelen > S5_NAME_LEN then (-ENAMETOOLONG, st)
  else
    let st := env.kmutex_lock src st
    let st := env.kmutex_lock dir st
    let p := env.s5_link dir src name namelen st
    let st := env.kmutex_unlock src p.2
    (p.1, env.kmutex_unlock dir st)

/-- The `s5fs_unlink` (s5fs.c lines 466-474): name-length guard, lock,
`s5_remove_dirent`, unlock. -/
def s5fs_unlink {St : Type} (env : S5Env St) (dir : Nat) (name : String)
    (namelen : Nat) (st : St) : Int × St :=
  if namelen > S5_NAME_LEN then (-ENAMETOOLONG, st)
  else
    let st := env.kmutex_lock dir st
    let p := env.s5_remove_dirent dir name namelen st
    (p.1, env.kmutex_unlock dir p.2)

/-- The `s5fs_mkdir` (s5fs.c lines 496-529): name-length guard, lock, allocate
a directory inode, `vget`, link it under `name` (failure: `vput`, unlock),
then create the `"."` and `".."` entries (failures unlock and propagate),
unlock. -/
def s5fs_mkdir {St : Type} (env : S5Env St) (dir : Nat) (devid : Nat)
    (name : String) (namelen : Nat) (st : St) : Int × St :=
  if namelen > S5_NAME_LEN then (-ENAMETOOLONG, st)
  else
    let st := env.kmutex_lock dir st
    let p := env.s5_alloc_inode S5_TYPE_DIR devid st
    if p.1 < 0 then (p.1, env.kmutex_unlock dir p.2)
    else
      let ino := p.1.toNat
      let st := env.vget ino p.2
      let q := env.s5_link dir ino name namelen st
      if q.1 ≠ 0 then (q.1, env.kmutex_unlock dir (env.vput ino q.2))
      else
        let q := env.s5_link ino ino "." 1 q.2
        if q.1 ≠ 0 then (q.1, env.kmutex_unlock dir q.2)
        else
          let q := env.s5_link ino dir ".." 2 q.2
          (q.1, env.kmutex_unlock dir q.2)

/-- The `s5fs_readdir` (s5fs.c lines 594-600): lock the vnode, read one
directory record at `offset` through `s5_read_file`, unlock; returns the
byte count, the (possibly unchanged) entry buffer, and the state. -/
def s5fs_readdir {St : Type} (env : S5Env St) (vn : Nat) (offset : Nat)
    (entry : DirEnt) (st : St) : Int × DirEnt × St :=
  let st := env.kmutex_lock vn st
  let p := env.s5_read_file vn offset entry st
  (p.1, p.2.1, env.kmutex_unlock vn p.2.2)

/-- The emptiness-check loop of `s5fs_rmdir` (s5fs.c lines 562-572).  The
source's for-update `s5fs_readdir(vn, offset, &entry)` discards its return
value, so `offset` is never reassigned inside the loop; it is therefore a
fixed parameter here.  Result: `some (true, st)` = exit with `-ENOTEMPTY`,
`some (false, st)` = loop finished, `none` = still looping when the fuel
runs out. -/
def rmdirCheckLoop {St : Type} (env : S5Env St) (vn : Nat) (offset : Int) :
    Nat → DirEnt → St → Option (Bool × St)
  | 0, _, _ => none
  | fuel + 1, entry, st =>
    if offset = 0 then some (false, st)
    else if entry.d_name = "." ∨ entry.d_name = ".." then
      let p := s5fs_readdir env vn offset.toNat entry st
      rmdirCheckLoop env vn offset fuel p.2.1 p.2.2
    else if entry.d_name ≠ "" then some (true, st)
    else
      let p := s5fs_readdir env vn offset.toNat entry st
      rmdirCheckLoop env vn offset fuel p.2.1 p.2.2

/-- The `s5fs_rmdir` (s5fs.c lines 541-584): name-length guard, `KASSERT` that
the name is neither `"."` nor `".."` (failure panics: `none`), lock the
parent, find the entry, `vget` it, check `S_ISDIR` — on the *parent's*
mode, as in the source — then run the emptiness loop; if it finishes,
remove the `".."` entry from the child and the `name` entry from the
parent.  `parentIsDir` is the value of `S_ISDIR(parent->vn_mode)`. -/
def s5fs_rmdir {St : Type} (env : S5Env St) (parent : Nat)
    (parentIsDir : Bool) (name : String) (namelen : Nat) (fuel : Nat)
    (entry0 : DirEnt) (st : St) : Option (Int × St) :=
  if namelen > S5_NAME_LEN then some (-ENAMETOOLONG, st)
  else if name = "." ∨ name = ".." then none
  else
    let st := env.kmutex_lock parent st
    let p := env.s5_find_dirent parent name namelen st
    if p.1 < 0 then some (p.1, env.kmutex_unlock parent p.2)
    else
      let vn := p.1.toNat
      let st := env.vget vn p.2
      if ¬parentIsDir then
        some (-ENOTDIR, env.kmutex_unlock parent (env.vput vn st))
      else
        let r := s5fs_readdir env vn 0 entry0 st
        match rmdirCheckLoop env vn r.1 fuel r.2.1 r.2.2 with
        | none => none
        | some (true, st) =>
            some (-ENOTEMPTY, env.kmutex_unlock parent (env.vput vn st))
        | some (false, st) =>
            let q := env.s5_remove_dirent vn ".." 2 st
            if q.1 ≠ 0 then some (q.1, env.kmutex_unlock parent q.2)
            else
              let q := env.s5_remove_dirent parent name namelen q.2
              some (q.1, env.kmutex_unlock parent q.2)

/-- A concrete instantiation for running `s5fs_rmdir`: the state is the
list of directory records of the directory being removed; reads index it
by `offset / sizeofDirent` (spec §3: fixed-size records) and leave the
buffer unchanged past end of file; the other subroutines are read-only
and `s5_find_dirent` resolves any name to inode 5. -/
def listDirEnv : S5Env (List DirEnt) where
  kmutex_lock := fun _ st => st
  kmutex_unlock := fun _ st => st
  s5_alloc_inode := fun _ _ st => (5, st)
  vget := fun _ st => st
  vput := fun _ st => st
  s5_link := fun _ _ _ _ st => (0, st)
  s5_find_dirent := fun _ _ _ st => (5, st)
  s5_remove_dirent := fun _ _ _ st => (0, st)
  s5_read_file := fun _ offset entry st =>
    match st.get? (offset / sizeofDirent) with
    | some e => ((sizeofDirent : Int), e, st)
    | none => (0, entry, st)

/-! ## `do_open` (`src/kernel/fs/open.c`)

`fget`, `fput`, `do_close` and `open_namev` live in `fs/file.c` /
`fs/namev.c`, outside the source slice; they are modelled from spec §3
(File: vnode, mode bits, refcount) and §4.7. -/

/-- The `NFILES` (spec §3/§6: fixed number of descriptor slots; the numeric
value is the conventional one from the headers, not in the slice). -/
def NFILES : Nat := 32

/-- The `O_RDONLY` (spec §4.7: `oflags & 3`). -/
def O_RDONLY : Nat := 0

/-- The `O_WRONLY`. -/
def O_WRONLY : Nat := 1

/-- The `O_RDWR`. -/
def O_RDWR : Nat := 2

/-- The `O_APPEND` (`fs/fcntl.h`, not in the slice). -/
def O_APPEND : Nat := 0x400

/-- The `FMODE_READ` (`fs/file.h`, not in the slice). -/
def FMODE_READ : Nat := 1

/-- The `FMODE_WRITE`. -/
def FMODE_WRITE : Nat := 2

/-- The `FMODE_APPEND`. -/
def FMODE_APPEND : Nat := 4

/-- An open-file description (spec §3 File): reference count, mode bits,
and the vnode once the path is resolved. -/
structure FileObj where
  f_refcount : Nat
  f_mode : Nat
  f_vnode : Option Nat
deriving DecidableEq

/-- The state `do_open` touches: the process descriptor table (`NFILES`
slots holding file-object ids), the file-object store (`none` = free
slot; allocation appends), and per-vnode reference counts. -/
structure OpenState where
  fdTable : List (Option Nat)
  files : List (Option FileObj)
  vnRefs : List Nat
deriving DecidableEq

/-- The scan inside `get_empty_fd` (open.c lines 22-34): index of the
first free descriptor slot. -/
def find_empty_fd : List (Option Nat) → Option Nat
  | [] => none
  | none :: _ => some 0
  | some _ :: rest => (find_empty_fd rest).map (· + 1)

/-- The `get_empty_fd` (open.c lines 22-34): first free slot, `-EMFILE` when
the table is full. -/
def get_empty_fd (tbl : List (Option Nat)) : Int :=
  match find_empty_fd tbl with
  | some fd => (fd : Int)
  | none => -EMFILE

/-- Modelled from the spec: `fget(-1)` (in `fs/file.c`, outside the
slice) allocates a fresh file object with reference count 1, or fails
when kernel memory is exhausted (`allocOk = false`). -/
def fget_fresh (st : OpenState) (allocOk : Bool) :
    Option (Nat × OpenState) :=
  if allocOk then
    some (st.files.length,
          { st with files := st.files ++ [some ⟨1, 0, none⟩] })
  else none

/-- Update the file object `fid` in place. -/
def modifyFile (st : OpenState) (fid : Nat) (g : FileObj → FileObj) :
    OpenState :=
  { st with files := st.files.set fid ((st.files.getD fid none).map g) }

/-- Modelled from the spec: `fput` (spec §3: File reference count)
decrements the count and on zero releases the object, dropping its vnode
reference if one was stored. -/
def fput (st : OpenState) (fid : Nat) : OpenState :=
  match st.files.getD fid none with
  | none => st
  | some f =>
      if f.f_refcount ≤ 1 then
        let st :=
          match f.f_vnode with
          | some v =>
              { st with vnRefs := st.vnRefs.set v (st.vnRefs.getD v 0 - 1) }
          | none => st
        { st with files := st.files.set fid none }
      else
        { st with files :=
            st.files.set fid (some { f with f_refcount := f.f_refcount - 1 }) }

/-- Modelled from the spec: `do_close(fd)` (spec §6 `close`) releases the
file in slot `fd` and clears the slot. -/
def do_close (st : OpenState) (fd : Nat) : OpenState :=
  match st.fdTable.getD fd none with
  | none => st
  | some fid =>
      let st1 := fput st fid
      { st1 with fdTable := st1.fdTable.set fd none }

/-- One vnode reference taken (`vget`/`open_namev` success). -/
def incVnRef (st : OpenState) (v : Nat) : OpenState :=
  { st with vnRefs := st.vnRefs.set v (st.vnRefs.getD v 0 + 1) }

/-- The `vput` on vnode `v`: one reference dropped. -/
def vputVn (st : OpenState) (v : Nat) : OpenState :=
  { st with vnRefs := st.vnRefs.set v (st.vnRefs.getD v 0 - 1) }

/-- The mode chain of open.c lines 83-93: `none` is the `-EINVAL` arm. -/
def computeMode (oflags : Nat) : Option Nat :=
  if oflags &&& 3 == O_RDONLY then some FMODE_READ
  else if oflags &&& 3 == O_WRONLY then some FMODE_WRITE
  else if oflags &&& 3 == O_RDWR then some (FMODE_WRITE ||| FMODE_READ)
  else none

/-- The `do_open` (open.c lines 72-114).  `allocOk` is whether `fget(-1)`
succeeds; `nameRes` is the `open_namev` outcome — a nonzero error status,
or the resolved vnode id together with the value of `S_ISDIR` on its
mode (a successful `open_namev` hands back a referenced vnode). -/
def do_open (st : OpenState) (allocOk : Bool)
    (nameRes : Except Int (Nat × Bool)) (oflags : Nat) : Int × OpenState :=
  let new_fd := get_empty_fd st.fdTable
  if new_fd = -EMFILE then (-EMFILE, st)
  else
    match fget_fresh st allocOk with
    | none => (-ENOMEM, st)
    | some (fid, st1) =>
        let st2 :=
          { st1 with fdTable := st1.fdTable.set new_fd.toNat (some fid) }
        match computeMode oflags with
        | none => (-EINVAL, do_close st2 new_fd.toNat)
        | some md0 =>
            let md := if oflags &&& O_APPEND ≠ 0 then md0 ||| FMODE_APPEND
                      else md0
            let st3 := modifyFile st2 fid (fun f => { f with f_mode := md })
            match nameRes with
            | .error e =>
                let st4 := do_close st3 new_fd.toNat
                (e, { st4 with
                        fdTable := st4.fdTable.set new_fd.toNat none })
            | .ok (vno, isDir) =>
                let st4 := incVnRef st3 vno
                if isDir ∧ md &&& FMODE_WRITE ≠ 0 then
                  (-EISDIR, vputVn (do_close st4 new_fd.toNat) vno)
                else
                  (new_fd,
                   modifyFile st4 fid (fun f => { f with f_vnode := some vno }))

/-! ## Address-space maps, `do_mmap` and `do_munmap`
(`src/kernel/vm/mmap.c`, the second part of the `boot/boot.S` slice)

`vmmap_map`, `vmmap_remove` and `fget` live in `vm/vmmap.c` / `fs/file.c`,
outside the slice; they are modelled from spec §4.3 and §3. -/

/-- The `MAP_SHARED` (`mm/mman.h`, not in the slice; conventional values). -/
def MAP_SHARED : Nat := 1

/-- The `MAP_PRIVATE`. -/
def MAP_PRIVATE : Nat := 2

/-- The `MAP_ANON`. -/
def MAP_ANON : Nat := 8

/-- The `PROT_WRITE`. -/
def PROT_WRITE : Nat := 2

/-- Lowest user page number. -/
def USER_LOW_PAGE : Nat := USER_MEM_LOW / PAGE_SIZE

/-- One past the highest user page number. -/
def USER_HIGH_PAGE : Nat := USER_MEM_HIGH / PAGE_SIZE

/-- A virtual-memory area (spec §3): half-open page range
`[vma_start, vma_end)`, protection, sharing flags, starting page offset
into the memory object, and the memory object (an id into the object
store). -/
structure VmArea where
  vma_start : Nat
  vma_end : Nat
  vma_off : Nat
  vma_prot : Nat
  vma_flags : Nat
  vma_obj : Nat
deriving DecidableEq

/-- Modelled from the spec: the part of one area outside the page range
`[lo, hi)` — kept whole when disjoint, else the left and/or right
remainders, with the page offset of the right remainder advanced
(spec §4.3 `vmmap_remove`: split, truncate, or delete). -/
def clipVmArea (a : VmArea) (lo hi : Nat) : List VmArea :=
  if a.vma_end ≤ lo ∨ hi ≤ a.vma_start then [a]
  else
    (if a.vma_start < lo then [{ a with vma_end := lo }] else []) ++
    (if hi < a.vma_end then
      [{ a with vma_start := hi,
                vma_off := a.vma_off + (hi - a.vma_start) }]
     else [])

/-- Modelled from the spec: `vmmap_remove(map, lopage, npages)`
(spec §4.3): make the exact range unmapped; no error is specified, so the
status is `0`. -/
def vmmap_remove (m : List VmArea) (lopage npages : Nat) :
    Int × List VmArea :=
  (0, (m.map (clipVmArea · lopage (lopage + npages))).flatten)

/-- The `do_munmap` (mmap.c lines 179-187): alignment / nonzero / user-range
checks on `addr` alone, then delegate to `vmmap_remove` (and flush the
TLB, which has no representation here). -/
def do_munmap (m : List VmArea) (addr len : Nat) : Int × List VmArea :=
  if ¬(addr % PAGE_SIZE = 0) ∨ ¬(len % PAGE_SIZE = 0) ∨ len = 0 then
    (-EINVAL, m)
  else if addr < USER_MEM_LOW ∨ addr ≥ USER_MEM_HIGH then (-EINVAL, m)
  else vmmap_remove m (addr / PAGE_SIZE) (len / PAGE_SIZE)

/-- The open file as `do_mmap` inspects it: its mode bits. -/
structure MFile where
  f_mode : Nat
deriving DecidableEq

/-- The `-EACCES` condition of mmap.c lines 152-155: file not open for
reading; or a shared writable mapping of a file not open for writing; or
`PROT_WRITE` on an append-only file. -/
def mmapAccessErr (f : MFile) (prot flags : Nat) : Bool :=
  (f.f_mode &&& FMODE_READ == 0) ||
  (flags &&& MAP_SHARED != 0 && prot &&& PROT_WRITE != 0 &&
    f.f_mode &&& FMODE_WRITE == 0) ||
  (prot &&& PROT_WRITE != 0 && f.f_mode == FMODE_APPEND)

/-- Sorted insertion of an area by start page (spec §4.3: insert the
area, maintaining ordering). -/
def insertArea : List VmArea → VmArea → List VmArea
  | [], a => [a]
  | b :: rest, a =>
      if a.vma_start ≤ b.vma_start then a :: b :: rest
      else b :: insertArea rest a

/-- Modelled from the spec: the high → low hole search of `vmmap_map`
(spec §4.3): the highest start page whose `npages`-page range fits in the
user range and overlaps no existing area. -/
def vmmap_find_range (m : List VmArea) (npages : Nat) : Option Nat :=
  ((List.range' USER_LOW_PAGE (USER_HIGH_PAGE - USER_LOW_PAGE)).reverse).find?
    (fun s => decide (s + npages ≤ USER_HIGH_PAGE) &&
      m.all (fun a => decide (a.vma_end ≤ s ∨ s + npages ≤ a.vma_start)))

/-- Modelled from the spec: `vmmap_map` (spec §4.3): with a nonzero page
hint, `-EINVAL` if the hinted range is outside the user page range, else
evict any overlap and insert there; with a zero hint, search for a hole
high → low, `-ENOMEM` on exhaustion.  Returns the status, the new map,
and the start page of the inserted area. -/
def vmmap_map (m : List VmArea) (lopage npages prot flags off : Nat) :
    Int × List VmArea × Option Nat :=
  if lopage ≠ 0 then
    if ¬(USER_LOW_PAGE ≤ lopage ∧ lopage + npages ≤ USER_HIGH_PAGE) then
      (-EINVAL, m, none)
    else
      (0, insertArea (vmmap_remove m lopage npages).2
            ⟨lopage, lopage + npages, off, prot, flags, 0⟩,
       some lopage)
  else
    match vmmap_find_range m npages with
    | none => (-ENOMEM, m, none)
    | some s =>
        (0, insertArea m ⟨s, s + npages, off, prot, flags, 0⟩, some s)

/-- The `do_mmap` (mmap.c lines 121-170): alignment / nonzero-length checks;
`addr` (the start alone) checked against the user range when nonzero;
exactly one of `MAP_PRIVATE`/`MAP_SHARED`; then for non-anonymous
mappings resolve the descriptor (`fgetRes` is the `fget` outcome) and
check permissions; finally delegate to `vmmap_map`. -/
def do_mmap (m : List VmArea) (fgetRes : Option MFile)
    (addr len prot flags off : Nat) : Int × List VmArea × Option Nat :=
  if ¬(addr % PAGE_SIZE = 0) ∨ ¬(len % PAGE_SIZE = 0) ∨
     ¬(off % PAGE_SIZE = 0) ∨ len = 0 then (-EINVAL, m, none)
  else if addr ≠ 0 ∧ (addr < USER_MEM_LOW ∨ addr ≥ USER_MEM_HIGH) then
    (-EINVAL, m, none)
  else if (flags &&& MAP_PRIVATE ≠ 0 ∧ flags &&& MAP_SHARED ≠ 0) ∨
          (flags &&& MAP_PRIVATE = 0 ∧ flags &&& MAP_SHARED = 0) then
    (-EINVAL, m, none)
  else if flags &&& MAP_ANON ≠ 0 then
    vmmap_map m (addr / PAGE_SIZE) (len / PAGE_SIZE) prot flags off
  else
    match fgetRes with
    | none => (-EBADF, m, none)
    | some f =>
        if mmapAccessErr f prot flags then (-EACCES, m, none)
        else vmmap_map m (addr / PAGE_SIZE) (len / PAGE_SIZE) prot flags off

/-! ## `do_fork` (`src/kernel/proc/fork.c`)

`vmmap_clone` and `shadow_create` live in `vm/vmmap.c` / `vm/shadow.c`,
outside the slice; they are modelled from spec §4.3 and §4.2.  The
embedding covers the address-space and control-flow slice of `do_fork`
that claims C1/C2 are about (vmmap clone, the shadow-interposition loop,
the saved child registers, and the return value); the descriptor-table
copy is orthogonal to both claims and not represented. -/

/-- A memory object: its shadowed object (for shadow objects) and its
reference count (spec §3 Memory object). -/
structure MmobjRec where
  mmo_shadowed : Option Nat
  mmo_refcount : Nat
deriving DecidableEq

/-- Modelled from the spec: retaining an object — `vma_obj` ref-count
increment during `vmmap_clone` (spec §4.3). -/
def incObjRef (objs : List MmobjRec) (i : Nat) : List MmobjRec :=
  match objs[i]? with
  | some o => objs.set i { o with mmo_refcount := o.mmo_refcount + 1 }
  | none => objs

/-- Modelled from the spec: `vmmap_clone` (spec §4.3): deep copy of the
vma list; each vma's object is retained by incrementing its reference
count; no shadow interposition happens here. -/
def vmmap_clone (areas : List VmArea) (objs : List MmobjRec) :
    List VmArea × List MmobjRec :=
  (areas, areas.foldl (fun os a => incObjRef os a.vma_obj) objs)

/-- A cursor into a circular doubly-linked `list_t`: the sentinel head or
the `i`-th element. -/
inductive ListPos where
  | sentinel : ListPos
  | node : Nat → ListPos
deriving DecidableEq

/-- The `l_next` on a circular list of `n` elements. -/
def posNext (n : Nat) : ListPos → ListPos
  | .sentinel => if n = 0 then .sentinel else .node 0
  | .node i => if i + 1 < n then .node (i + 1) else .sentinel

/-- The `l_prev` on a circular list of `n` elements. -/
def posPrev (n : Nat) : ListPos → ListPos
  | .sentinel => if n = 0 then .sentinel else .node (n - 1)
  | .node i => if i = 0 then .sentinel else .node (i - 1)

/-- The shadow-interposition loop of `do_fork` (fork.c lines 71-90),
cursor-for-cursor: `link` starts at the parent list's `l_next`, `link2`
at the child list's `l_prev`; the guard re-reads both lists' `l_next` and
continues only while *both* cursors differ from them; a private area gets
two fresh shadow objects (appended to the store) pointing at the parent
area's previous object, one installed in each area.  Dereferencing the
sentinel (the C code's `list_item` on the head) is `none`, as is running
out of fuel. -/
def forkShadowLoop :
    Nat → ListPos → ListPos → List VmArea → List VmArea →
    List MmobjRec → Option (List VmArea × List VmArea × List MmobjRec)
  | 0, _, _, _, _, _ => none
  | fuel + 1, link, link2, parent, child, objs =>
    if link ≠ posNext parent.length .sentinel ∧
       link2 ≠ posNext child.length .sentinel then
      match link, link2 with
      | .node i, .node j =>
          match parent[i]?, child[j]? with
          | some vma, some vma2 =>
              if vma.vma_flags &&& MAP_PRIVATE ≠ 0 then
                let s1 := objs.length
                let s2 := objs.length + 1
                let objs' := objs ++
                  [⟨some vma.vma_obj, 1⟩, ⟨some vma.vma_obj, 1⟩]
                let parent' := parent.set i { vma with vma_obj := s1 }
                let child' := child.set j { vma2 with vma_obj := s2 }
                forkShadowLoop fuel (posNext parent'.length link)
                  (posNext child'.length link2) parent' child' objs'
              else
                forkShadowLoop fuel (posNext parent.length link)
                  (posNext child.length link2) parent child objs
          | _, _ => none
      | _, _ => none
    else some (parent, child, objs)

/-- The saved user registers of a thread; `r_eax` carries the value the
resuming user thread observes as the system call's return. -/
structure Regs where
  r_eax : Nat
deriving DecidableEq

/-- The `fork_setup_stack` (fork.c lines 34-43): the caller's register frame
is copied onto the child's kernel stack unchanged. -/
def fork_setup_stack (regs : Regs) : Regs := regs

/-- What `do_fork` produces: its return value (the parent's view), the
child's pid, both address-space maps, the object store, and the register
frame the child will pop in `userland_entry`. -/
structure ForkResult where
  ret : Int
  childPid : Nat
  parentAreas : List VmArea
  childAreas : List VmArea
  objs : List MmobjRec
  childRegs : Regs
deriving DecidableEq

/-- The `do_fork` (fork.c lines 51-112), address-space slice: clone the
vmmap, run the shadow-interposition loop (`link` from the parent list's
`l_next`, `link2` from the child list's `l_prev`), set up the child's
stack with the copied registers, and `return 0`.  `newPid` is the pid
`proc_create` assigned to the child. -/
def do_fork (regs : Regs) (newPid : Nat) (parentAreas : List VmArea)
    (objs : List MmobjRec) : Option ForkResult :=
  let cl := vmmap_clone parentAreas objs
  match forkShadowLoop (parentAreas.length + cl.1.length + 1)
      (posNext parentAreas.length .sentinel)
      (posPrev cl.1.length .sentinel) parentAreas cl.1 cl.2 with
  | none => none
  | some (p, c, o) =>
      some { ret := 0, childPid := newPid, parentAreas := p,
             childAreas := c, objs := o,
             childRegs := fork_setup_stack regs }

end Weenix

namespace Weenix

/-- Setting a slot to the value it already holds is the identity. -/
lemma list_set_self {α : Type} :
    ∀ (l : List α) (i : Nat) (a : α), l[i]? = some a → l.set i a = l
  | [], i, a, h => by simp at h
  | x :: xs, 0, a, h => by simp at h; simp [h]
  | x :: xs, i + 1, a, h => by
      simp at h
      simp [List.set, list_set_self xs i a h]

/-- Overwriting the element just appended. -/
lemma list_set_concat {α : Type} (l : List α) (a b : α) :
    (l ++ [a]).set l.length b = l ++ [b] := by
  induction l with
  | nil => rfl
  | cons x xs ih => simp [List.set, ih]

/-- Incrementing a counter slot and then decrementing it restores the
original list. -/
lemma list_inc_dec (l : List Nat) (v : Nat) :
    l.set v ((l.set v (l[v]?.getD 0 + 1))[v]?.getD 0 - 1) = l := by
  by_cases hv : v < l.length
  · simp [List.getElem?_set, hv]
    exact list_set_self l v _ (by simp [List.getElem?_eq_getElem hv])
  · simp [List.set_eq_of_length_le (by omega : l.length ≤ v)]

/-- The slot `find_empty_fd` reports is indeed a free slot of the table. -/
lemma find_empty_fd_spec :
    ∀ (tbl : List (Option Nat)) (fd : Nat),
      find_empty_fd tbl = some fd → tbl[fd]? = some none
  | [], fd, h => by simp [find_empty_fd] at h
  | none :: rest, fd, h => by
      simp [find_empty_fd] at h
      simp [← h]
  | some x :: rest, fd, h => by
      simp [find_empty_fd] at h
      obtain ⟨fd', h1, rfl⟩ := h
      simpa using find_empty_fd_spec rest fd' h1

/-- Closing the descriptor that `do_open` just reserved — pointing at a
freshly allocated, vnode-less file object with reference count one —
restores the descriptor table, frees the object, and leaves the vnode
reference counts alone. -/
lemma do_close_fresh (tbl : List (Option Nat)) (fls : List (Option FileObj))
    (r : List Nat) (fd : Nat) (g : FileObj)
    (htbl : tbl[fd]? = some none) (hvn : g.f_vnode = none)
    (hrc : g.f_refcount = 1) :
    do_close ⟨tbl.set fd (some fls.length), fls ++ [some g], r⟩ fd
      = ⟨tbl, fls ++ [none], r⟩ := by
  have hlt : fd < tbl.length := by
    by_contra hc
    rw [List.getElem?_eq_none (by omega)] at htbl
    exact Option.noConfusion htbl
  have h1 : (tbl.set fd (some fls.length)).getD fd none
      = some fls.length := by
    simp [List.getD_eq_getElem?_getD, List.getElem?_set, hlt]
  have h2 : (fls ++ [some g]).getD fls.length none = some g := by
    simp [List.getD_eq_getElem?_getD]
  simp only [do_close, h1]
  simp only [fput, h2, hrc, hvn]
  simp [List.set_set, list_set_concat, list_set_self tbl fd none htbl]

/-- Claim C6: whenever `do_open` returns a negative error, the descriptor
table and the vnode reference counts are exactly as before the call, and
the file-object store holds no new live object — either it is untouched
(failure before allocation) or its only change is that the freshly
allocated slot has been freed again. -/
theorem C6_do_open_error_releases_resources (st : OpenState)
    (allocOk : Bool) (nameRes : Except Int (Nat × Bool)) (oflags : Nat)
    (h : (do_open st allocOk nameRes oflags).1 < 0) :
    (do_open st allocOk nameRes oflags).2.fdTable = st.fdTable ∧
    (do_open st allocOk nameRes oflags).2.vnRefs = st.vnRefs ∧
    ((do_open st allocOk nameRes oflags).2.files = st.files ∨
     (do_open st allocOk nameRes oflags).2.files = st.files ++ [none]) := by
  rcases hfd : find_empty_fd st.fdTable with _ | fd
  · simp [do_open, get_empty_fd, hfd]
  · have hslot := find_empty_fd_spec st.fdTable fd hfd
    have hne : ((fd : Int)) ≠ -EMFILE := by
      have : (0 : Int) ≤ (fd : Int) := Int.ofNat_nonneg fd
      simp only [EMFILE]; omega
    cases allocOk with
    | false => simp [do_open, get_empty_fd, hfd, fget_fresh, hne]
    | true =>
        rcases hmode : computeMode oflags with _ | md0
        · have hclose := do_close_fresh st.fdTable st.files st.vnRefs fd
            ⟨1, 0, none⟩ hslot rfl rfl
          simp [do_open, get_empty_fd, hfd, fget_fresh, hne, hmode, hclose]
        · rcases nameRes with e | ⟨vno, isDir⟩
          · have hclose := do_close_fresh st.fdTable st.files st.vnRefs fd
              ⟨1, if oflags &&& O_APPEND = 0 then md0
                  else md0 ||| FMODE_APPEND, none⟩ hslot rfl rfl
            simp [do_open, get_empty_fd, hfd, fget_fresh, hne, hmode,
              modifyFile, list_set_concat, hclose,
              list_set_self st.fdTable fd none hslot]
          · by_cases hdir : isDir = true ∧
                ¬((if oflags &&& O_APPEND = 0 then md0
                   else md0 ||| FMODE_APPEND) &&& FMODE_WRITE = 0)
            · have hclose := do_close_fresh st.fdTable st.files
                (st.vnRefs.set vno (st.vnRefs[vno]?.getD 0 + 1)) fd
                ⟨1, if oflags &&& O_APPEND = 0 then md0
                    else md0 ||| FMODE_APPEND, none⟩ hslot rfl rfl
              simp [do_open, get_empty_fd, hfd, fget_fresh, hne, hmode,
                modifyFile, list_set_concat, incVnRef, hdir, hclose,
                vputVn, list_inc_dec]
            · exfalso
              simp [do_open, get_empty_fd, hfd, fget_fresh, hne, hmode,
                hdir] at h
              omega

/-- Witness for C6: a one-slot table, successful allocation, and a path
resolution failing with `-ENOENT`; the state is fully restored. -/
theorem C6_do_open_error_releases_resources_witness :
    (do_open ⟨[none], [], [3]⟩ true (Except.error (-ENOENT)) 0).1 < 0 ∧
    ((do_open ⟨[none], [], [3]⟩ true (Except.error (-ENOENT)) 0).2.fdTable
        = [none] ∧
     (do_open ⟨[none], [], [3]⟩ true (Except.error (-ENOENT)) 0).2.vnRefs
        = [3] ∧
     ((do_open ⟨[none], [], [3]⟩ true (Except.error (-ENOENT)) 0).2.files
        = [] ∨
      (do_open ⟨[none], [], [3]⟩ true (Except.error (-ENOENT)) 0).2.files
        = [] ++ [none])) :=
  ⟨by decide,
   C6_do_open_error_releases_resources ⟨[none], [], [3]⟩ true
     (Except.error (-ENOENT)) 0 (by decide)⟩

/-- An area disjoint from the removed range is kept whole. -/
lemma clipVmArea_of_disjoint (a : VmArea) (lo hi : Nat)
    (h : a.vma_end ≤ lo ∨ hi ≤ a.vma_start) : clipVmArea a lo hi = [a] := by
  simp [clipVmArea, h]

/-- Every area left by clipping is disjoint from the removed range. -/
lemma clipVmArea_result_disjoint (a : VmArea) (lo hi : Nat) :
    ∀ b ∈ clipVmArea a lo hi, b.vma_end ≤ lo ∨ hi ≤ b.vma_start := by
  intro b hb
  by_cases hd : a.vma_end ≤ lo ∨ hi ≤ a.vma_start
  · rw [clipVmArea_of_disjoint a lo hi hd] at hb
    simp at hb; subst hb; exact hd
  · simp only [clipVmArea, if_neg hd, List.mem_append] at hb
    rcases hb with hb | hb
    · by_cases hs : a.vma_start < lo
      · simp [hs] at hb; subst hb; left; simp
      · simp [hs] at hb
    · by_cases he : hi < a.vma_end
      · simp [he] at hb; subst hb; right; simp
      · simp [he] at hb

/-- Removing a range that no area overlaps leaves the map unchanged. -/
lemma vmmap_remove_of_disjoint (m : List VmArea) (lo n : Nat)
    (h : ∀ a ∈ m, a.vma_end ≤ lo ∨ lo + n ≤ a.vma_start) :
    (vmmap_remove m lo n).2 = m := by
  induction m with
  | nil => rfl
  | cons a rest ih =>
      have ha := h a (by simp)
      have hrest : ∀ b ∈ rest, b.vma_end ≤ lo ∨ lo + n ≤ b.vma_start :=
        fun b hb => h b (by simp [hb])
      simp only [vmmap_remove, List.map_cons, List.flatten_cons,
        clipVmArea_of_disjoint a lo (lo + n) ha]
      simpa [vmmap_remove] using ih hrest

/-- After a removal, every remaining area is disjoint from the range. -/
lemma vmmap_remove_result_disjoint (m : List VmArea) (lo n : Nat) :
    ∀ b ∈ (vmmap_remove m lo n).2,
      b.vma_end ≤ lo ∨ lo + n ≤ b.vma_start := by
  intro b hb
  simp only [vmmap_remove, List.mem_flatten, List.mem_map] at hb
  obtain ⟨_, ⟨a, _, rfl⟩, hba⟩ := hb
  exact clipVmArea_result_disjoint a lo (lo + n) b hba

/-- Claim C8: for a page-aligned `addr`, nonzero page-aligned `len`, and
`[addr, addr+len)` inside the user range, `do_munmap` returns `0`; it is
the identity on a map with no area overlapping the range; and a second
call on the same range again returns `0` and leaves the map of the first
call unchanged. -/
theorem C8_munmap_idempotent (m : List VmArea) (addr len : Nat)
    (ha : addr % PAGE_SIZE = 0) (hl : len % PAGE_SIZE = 0) (hlen : len ≠ 0)
    (hlo : USER_MEM_LOW ≤ addr) (hhi : addr + len ≤ USER_MEM_HIGH) :
    (do_munmap m addr len).1 = 0 ∧
    ((∀ a ∈ m, a.vma_end ≤ addr / PAGE_SIZE ∨
        addr / PAGE_SIZE + len / PAGE_SIZE ≤ a.vma_start) →
      (do_munmap m addr len).2 = m) ∧
    do_munmap (do_munmap m addr len).2 addr len
      = (0, (do_munmap m addr len).2) := by
  have hg1 : ¬(¬(addr % PAGE_SIZE = 0) ∨ ¬(len % PAGE_SIZE = 0) ∨
      len = 0) := by simp [ha, hl, hlen]
  have hg2 : ¬(addr < USER_MEM_LOW ∨ addr ≥ USER_MEM_HIGH) := by omega
  have e1 : do_munmap m addr len
      = vmmap_remove m (addr / PAGE_SIZE) (len / PAGE_SIZE) := by
    simp only [do_munmap, if_neg hg1, if_neg hg2]
  refine ⟨by simp [e1, vmmap_remove], fun hdis => ?_, ?_⟩
  · rw [e1]; exact vmmap_remove_of_disjoint m _ _ hdis
  · have e2 : do_munmap (do_munmap m addr len).2 addr len
        = vmmap_remove (do_munmap m addr len).2 (addr / PAGE_SIZE)
            (len / PAGE_SIZE) := by
      simp only [do_munmap, if_neg hg1, if_neg hg2]
    rw [e2]
    have h3 := vmmap_remove_of_disjoint (do_munmap m addr len).2
      (addr / PAGE_SIZE) (len / PAGE_SIZE)
      (by rw [e1]; exact vmmap_remove_result_disjoint m _ _)
    rw [show vmmap_remove (do_munmap m addr len).2 (addr / PAGE_SIZE)
        (len / PAGE_SIZE) = (0, (vmmap_remove (do_munmap m addr len).2
        (addr / PAGE_SIZE) (len / PAGE_SIZE)).2) from rfl, h3]

/-- Witness for C8: unmapping the untouched page at `USER_MEM_LOW` with a
one-area map lying elsewhere. -/
theorem C8_munmap_idempotent_witness :
    (do_munmap [⟨0x500, 0x600, 0, 3, 2, 0⟩] 0x400000 4096).1 = 0 ∧
    ((∀ a ∈ [(⟨0x500, 0x600, 0, 3, 2, 0⟩ : VmArea)],
        a.vma_end ≤ 0x400000 / PAGE_SIZE ∨
        0x400000 / PAGE_SIZE + 4096 / PAGE_SIZE ≤ a.vma_start) →
      (do_munmap [⟨0x500, 0x600, 0, 3, 2, 0⟩] 0x400000 4096).2
        = [⟨0x500, 0x600, 0, 3, 2, 0⟩]) ∧
    do_munmap (do_munmap [⟨0x500, 0x600, 0, 3, 2, 0⟩] 0x400000 4096).2
        0x400000 4096
      = (0, (do_munmap [⟨0x500, 0x600, 0, 3, 2, 0⟩] 0x400000 4096).2) :=
  C8_munmap_idempotent [⟨0x500, 0x600, 0, 3, 2, 0⟩] 0x400000 4096
    (by decide) (by decide) (by decide) (by decide) (by decide)

/-- Claim C5 (counterexample): with `addr` the last user page but
`addr + len` crossing `USER_MEM_HIGH`, aligned arguments, exactly
`MAP_SHARED` set and an unresolvable descriptor, `do_mmap` returns
`-EBADF`, not `-EINVAL` — although the claim's `-EINVAL` condition (the
range `[addr, addr+len)` is not contained in the user range) holds. -/
theorem C5_einval_counterexample :
    (do_mmap [] none (USER_MEM_HIGH - PAGE_SIZE) (2 * PAGE_SIZE) 0
        MAP_SHARED 0).1 = -EBADF ∧
    (-EBADF : Int) ≠ -EINVAL ∧
    (USER_MEM_HIGH - PAGE_SIZE) % PAGE_SIZE = 0 ∧
    (2 * PAGE_SIZE) % PAGE_SIZE = 0 ∧ (0 : Nat) % PAGE_SIZE = 0 ∧
    2 * PAGE_SIZE ≠ 0 ∧
    USER_MEM_HIGH - PAGE_SIZE ≠ 0 ∧
    ¬(USER_MEM_HIGH - PAGE_SIZE + 2 * PAGE_SIZE ≤ USER_MEM_HIGH) ∧
    MAP_SHARED &&& MAP_PRIVATE = 0 ∧ MAP_SHARED &&& MAP_SHARED ≠ 0 := by
  decide

/-- The `-EINVAL` outcome of the (spec-modelled) `vmmap_map`, phrased in
terms of the byte arguments `do_mmap` passes, for aligned arguments with
an admissible `addr` start. -/
lemma vmmap_map_einval_iff (m : List VmArea)
    (addr len prot flags off : Nat)
    (ha : addr % PAGE_SIZE = 0) (hl : len % PAGE_SIZE = 0)
    (hrange : ¬(addr ≠ 0 ∧ (addr < USER_MEM_LOW ∨ addr ≥ USER_MEM_HIGH))) :
    ((vmmap_map m (addr / PAGE_SIZE) (len / PAGE_SIZE) prot flags off).1
        = -EINVAL) ↔
      (addr ≠ 0 ∧ USER_MEM_HIGH < addr + len) := by
  simp only [PAGE_SIZE, USER_MEM_LOW, USER_MEM_HIGH] at ha hl hrange ⊢
  unfold vmmap_map
  split_ifs with h5 h6
  · -- hinted range accepted: status 0
    refine iff_of_false (by norm_num [EINVAL]) ?_
    simp only [USER_LOW_PAGE, USER_HIGH_PAGE, PAGE_SIZE, USER_MEM_LOW,
      USER_MEM_HIGH] at h6
    omega
  · -- hinted range rejected: -EINVAL
    refine iff_of_true rfl ?_
    simp only [USER_LOW_PAGE, USER_HIGH_PAGE, PAGE_SIZE, USER_MEM_LOW,
      USER_MEM_HIGH] at h6
    omega
  · rcases hfr : vmmap_find_range m (len / 4096) with _ | s <;>
      simp only [hfr] <;>
      refine iff_of_false (by norm_num [EINVAL, ENOMEM]) ?_ <;> omega

/-- Claim C5 (amended): `do_mmap` returns `-EINVAL` exactly when an
argument is misaligned or `len` is zero; or `addr` is nonzero and `addr`
itself lies outside `[USER_LOW, USER_HIGH)`; or the flags contain both or
neither of `MAP_PRIVATE`/`MAP_SHARED`; or — once the descriptor stage
succeeds (`MAP_ANON`, or a resolvable descriptor passing the permission
checks) — `addr` is nonzero and the tail of the range crosses
`USER_HIGH`. -/
theorem C5_do_mmap_einval_iff (m : List VmArea) (fgetRes : Option MFile)
    (addr len prot flags off : Nat) :
    ((do_mmap m fgetRes addr len prot flags off).1 = -EINVAL) ↔
      ((¬(addr % PAGE_SIZE = 0) ∨ ¬(len % PAGE_SIZE = 0) ∨
        ¬(off % PAGE_SIZE = 0) ∨ len = 0) ∨
       (addr ≠ 0 ∧ (addr < USER_MEM_LOW ∨ addr ≥ USER_MEM_HIGH)) ∨
       ((flags &&& MAP_PRIVATE ≠ 0 ∧ flags &&& MAP_SHARED ≠ 0) ∨
        (flags &&& MAP_PRIVATE = 0 ∧ flags &&& MAP_SHARED = 0)) ∨
       ((flags &&& MAP_ANON ≠ 0 ∨
         (∃ f, fgetRes = some f ∧ mmapAccessErr f prot flags = false)) ∧
        addr ≠ 0 ∧ USER_MEM_HIGH < addr + len)) := by
  unfold do_mmap
  split_ifs with h1 h2 h3 h4
  · exact iff_of_true rfl (Or.inl h1)
  · exact iff_of_true rfl (Or.inr (Or.inl h2))
  · exact iff_of_true rfl (Or.inr (Or.inr (Or.inl h3)))
  · push_neg at h1
    rw [vmmap_map_einval_iff m addr len prot flags off h1.1 h1.2.1 h2]
    constructor
    · exact fun hc => Or.inr (Or.inr (Or.inr ⟨Or.inl h4, hc⟩))
    · rintro ((hA | hA | hA | hA) | hB | hC | ⟨_, hD⟩)
      · exact absurd h1.1 hA
      · exact absurd h1.2.1 hA
      · exact absurd h1.2.2.1 hA
      · exact absurd hA h1.2.2.2
      · exact absurd hB h2
      · exact absurd hC h3
      · exact hD
  · rcases fgetRes with _ | f
    · refine iff_of_false (by norm_num [EBADF, EINVAL]) ?_
      rintro ((hA | hA | hA | hA) | hB | hC | ⟨hd, _⟩)
      · exact h1 (Or.inl hA)
      · exact h1 (Or.inr (Or.inl hA))
      · exact h1 (Or.inr (Or.inr (Or.inl hA)))
      · exact h1 (Or.inr (Or.inr (Or.inr hA)))
      · exact h2 hB
      · exact h3 hC
      · rcases hd with hd | ⟨f, hf, _⟩
        · exact h4 hd
        · exact Option.noConfusion hf
    · show ((if mmapAccessErr f prot flags = true then
          ((-EACCES : Int), m, (none : Option Nat))
        else vmmap_map m (addr / PAGE_SIZE) (len / PAGE_SIZE) prot flags
          off).1 = -EINVAL) ↔ _
      by_cases hacc : mmapAccessErr f prot flags
      · rw [if_pos hacc]
        refine iff_of_false (by norm_num [EACCES, EINVAL]) ?_
        rintro ((hA | hA | hA | hA) | hB | hC | ⟨hd, _⟩)
        · exact h1 (Or.inl hA)
        · exact h1 (Or.inr (Or.inl hA))
        · exact h1 (Or.inr (Or.inr (Or.inl hA)))
        · exact h1 (Or.inr (Or.inr (Or.inr hA)))
        · exact h2 hB
        · exact h3 hC
        · rcases hd with hd | ⟨f', hf', herr⟩
          · exact h4 hd
          · cases hf'
            exact absurd hacc (by simp [herr])
      · rw [if_neg hacc]
        push_neg at h1
        rw [vmmap_map_einval_iff m addr len prot flags off h1.1 h1.2.1 h2]
        constructor
        · exact fun hc => Or.inr (Or.inr (Or.inr
            ⟨Or.inr ⟨f, rfl, by simpa using hacc⟩, hc⟩))
        · rintro ((hA | hA | hA | hA) | hB | hC | ⟨_, hD⟩)
          · exact absurd h1.1 hA
          · exact absurd h1.2.1 hA
          · exact absurd h1.2.2.1 hA
          · exact absurd hA h1.2.2.2
          · exact absurd hB h2
          · exact absurd hC h3
          · exact hD

/-- The guard of the shadow-interposition loop compares `link` against
the parent list's `l_next` — the very value `link` was initialised to —
so the loop exits before its first iteration, whatever the lists
contain. -/
lemma forkShadowLoop_exits_immediately (fuel : Nat) (l2 : ListPos)
    (parent child : List VmArea) (objs : List MmobjRec) :
    forkShadowLoop (fuel + 1) (posNext parent.length .sentinel) l2 parent
      child objs = some (parent, child, objs) := by
  have hguard : ¬(posNext parent.length ListPos.sentinel
        ≠ posNext parent.length ListPos.sentinel ∧
      l2 ≠ posNext child.length ListPos.sentinel) := fun h => h.1 rfl
  simp only [forkShadowLoop, if_neg hguard]

/-- Claim C2 (code_bug counter-evidence): `do_fork` always returns `0` to
the parent — never the child's pid — and hands the child the caller's
register frame unchanged, so the child's `eax` is whatever the parent's
was, not `0`. -/
theorem C2_fork_returns_zero (regs : Regs) (newPid : Nat)
    (areas : List VmArea) (objs : List MmobjRec) :
    do_fork regs newPid areas objs
      = some { ret := 0, childPid := newPid, parentAreas := areas,
               childAreas := areas, objs := (vmmap_clone areas objs).2,
               childRegs := regs } := by
  show (match forkShadowLoop (areas.length + areas.length + 1)
      (posNext areas.length .sentinel) (posPrev areas.length .sentinel)
      areas areas (vmmap_clone areas objs).2 with
    | none => none
    | some (p, c, o) =>
        some ({ ret := 0, childPid := newPid, parentAreas := p,
                childAreas := c, objs := o,
                childRegs := fork_setup_stack regs } : ForkResult)) = _
  rw [forkShadowLoop_exits_immediately]
  rfl

/-- Claim C1 (code_bug counter-evidence): forking a parent whose single
area is `MAP_PRIVATE` over object `0` (an anonymous object of reference
count 1) interposes no shadow object at all: both the parent's and the
child's area still point at object `0` directly, the object store has
gained no shadow entries, and object `0`'s reference count rose only by
one (the clone's retain), not by two. -/
theorem C1_fork_no_shadow_interposed :
    do_fork ⟨42⟩ 7 [⟨0x500, 0x600, 0, 3, MAP_PRIVATE, 0⟩] [⟨none, 1⟩]
      = some { ret := 0, childPid := 7,
               parentAreas := [⟨0x500, 0x600, 0, 3, MAP_PRIVATE, 0⟩],
               childAreas := [⟨0x500, 0x600, 0, 3, MAP_PRIVATE, 0⟩],
               objs := [⟨none, 2⟩], childRegs := ⟨42⟩ } := by
  decide

/-- Claim C9: the kernel image begins with a multiboot header consisting of
the word `MULTIBOOT_HEADER_MAGIC`, then a flags word equal to
`MULTIBOOT_PAGE_ALIGN ||| MULTIBOOT_MEMORY_INFO`, then a checksum word such
that the three words sum to zero modulo `2^32`. -/
theorem C9_multiboot_header :
    multibootHeader =
      [MULTIBOOT_HEADER_MAGIC,
       MULTIBOOT_PAGE_ALIGN ||| MULTIBOOT_MEMORY_INFO,
       multibootChecksum] ∧
    (MULTIBOOT_HEADER_MAGIC + multibootFlags + multibootChecksum) % 2 ^ 32
      = 0 := by
  constructor
  · rfl
  · decide

/-- Claim C3 (code_bug counter-evidence): on an inode whose only slot is a
sparse hole and with a free block available, `s5fs_dirtypage` returns `0`
and leaves the region sparse and the state untouched — the claim (and the
comment above the function) says a sparse region gets a block allocated;
and on an offset whose block is already allocated, it returns the positive
block number `3`, not `0`. -/
theorem C3_dirtypage_inverted_sparse_test :
    s5fs_dirtypage ⟨⟨[none]⟩, [7]⟩ 0 = (0, ⟨⟨[none]⟩, [7]⟩) ∧
    sparseAt (s5fs_dirtypage ⟨⟨[none]⟩, [7]⟩ 0).2 0 ∧
    s5fs_dirtypage ⟨⟨[some 3]⟩, [7]⟩ 0 = (3, ⟨⟨[some 3]⟩, [7]⟩) := by
  decide

/-- A directory as `mkdir` leaves it: just the `"."` and `".."` entries. -/
def dirDots : List DirEnt := [⟨5, "."⟩, ⟨2, ".."⟩]

/-- A directory that still contains a live entry `"x"` besides the dots. -/
def dirDotsX : List DirEnt := [⟨5, "."⟩, ⟨2, ".."⟩, ⟨7, "x"⟩]

/-- In the concrete environment, reading a directory whose second record is
`".."` at the loop's frozen offset `sizeofDirent` returns that same record
forever, so the emptiness loop never exits, whatever the fuel. -/
lemma rmdirCheckLoop_stuck (vn : Nat) :
    ∀ (fuel : Nat) (st : List DirEnt) (dd e : DirEnt),
      st[1]? = some dd → dd.d_name = ".." →
      (e.d_name = "." ∨ e.d_name = "..") →
      rmdirCheckLoop listDirEnv vn (sizeofDirent : Int) fuel e st = none := by
  intro fuel
  induction fuel with
  | zero => intro st dd e _ _ _; rfl
  | succ n ih =>
      intro st dd e h1 h2 h3
      have hoff : ((sizeofDirent : Int)) ≠ 0 := by decide
      have hq : sizeofDirent / sizeofDirent = 1 := by decide
      have hread :
          s5fs_readdir listDirEnv vn (sizeofDirent : Int).toNat e st
            = ((sizeofDirent : Int), dd, st) := by
        simp [s5fs_readdir, listDirEnv, hq, h1]
      simp only [rmdirCheckLoop, if_neg hoff, if_pos h3, hread]
      exact ih st dd dd h1 h2 (Or.inr h2)

/-- Claim C4 (code_bug counter-evidence): the emptiness-check loop of
`s5fs_rmdir` never reassigns `offset`, so removing a directory that
contains the standard `"."` and `".."` entries never returns, for every
fuel bound — both when the directory is otherwise empty and when it still
holds a live entry `"x"` (which the loop therefore also never detects). -/
theorem C4_rmdir_emptiness_loop_diverges :
    ∀ fuel : Nat,
      s5fs_rmdir listDirEnv 1 true "x" 1 fuel ⟨0, ""⟩ dirDots = none ∧
      s5fs_rmdir listDirEnv 1 true "x" 1 fuel ⟨0, ""⟩ dirDotsX = none := by
  intro fuel
  refine ⟨?_, ?_⟩
  · have hloop := rmdirCheckLoop_stuck 5 fuel dirDots ⟨2, ".."⟩ ⟨5, "."⟩
      rfl rfl (Or.inl rfl)
    simp [s5fs_rmdir, listDirEnv, s5fs_readdir, dirDots, S5_NAME_LEN]
      at hloop ⊢
    simp [hloop]
  · have hloop := rmdirCheckLoop_stuck 5 fuel dirDotsX ⟨2, ".."⟩ ⟨5, "."⟩
      rfl rfl (Or.inl rfl)
    simp [s5fs_rmdir, listDirEnv, s5fs_readdir, dirDotsX, S5_NAME_LEN]
      at hloop ⊢
    simp [hloop]

/-- Claim C10: every S5FS namespace operation taking a name returns
`-ENAMETOOLONG` when `namelen` exceeds `S5_NAME_LEN`, with the kernel
state returned exactly as it was — for every possible behaviour of the
locking, inode, directory and page-cache subroutines, which are therefore
not invoked. -/
theorem C10_name_length_guard {St : Type} (env : S5Env St) (st : St)
    (dir src devid mode fuel : Nat) (parentIsDir : Bool) (entry0 : DirEnt)
    (name : String) (namelen : Nat) (h : namelen > S5_NAME_LEN) :
    s5fs_create env dir devid name namelen st = (-ENAMETOOLONG, st) ∧
    s5fs_mknod env dir name namelen mode devid st
      = some (-ENAMETOOLONG, st) ∧
    s5fs_lookup env dir name namelen st = (-ENAMETOOLONG, st) ∧
    s5fs_link env src dir name namelen st = (-ENAMETOOLONG, st) ∧
    s5fs_unlink env dir name namelen st = (-ENAMETOOLONG, st) ∧
    s5fs_mkdir env dir devid name namelen st = (-ENAMETOOLONG, st) ∧
    s5fs_rmdir env dir parentIsDir name namelen fuel entry0 st
      = some (-ENAMETOOLONG, st) := by
  refine ⟨?_, ?_, ?_, ?_, ?_, ?_, ?_⟩ <;>
    simp [s5fs_create, s5fs_mknod, s5fs_lookup, s5fs_link, s5fs_unlink,
      s5fs_mkdir, s5fs_rmdir, h]

/-- Witness for C10 in the concrete list environment with a 29-character
name (`S5_NAME_LEN = 28`). -/
theorem C10_name_length_guard_witness :
    s5fs_create listDirEnv 1 0 "n" 29 [] = (-ENAMETOOLONG, []) ∧
    s5fs_mknod listDirEnv 1 "n" 29 0x2000 0 [] = some (-ENAMETOOLONG, []) ∧
    s5fs_lookup listDirEnv 1 "n" 29 [] = (-ENAMETOOLONG, []) ∧
    s5fs_link listDirEnv 2 1 "n" 29 [] = (-ENAMETOOLONG, []) ∧
    s5fs_unlink listDirEnv 1 "n" 29 [] = (-ENAMETOOLONG, []) ∧
    s5fs_mkdir listDirEnv 1 0 "n" 29 [] = (-ENAMETOOLONG, []) ∧
    s5fs_rmdir listDirEnv 1 true "n" 29 3 ⟨0, ""⟩ []
      = some (-ENAMETOOLONG, []) :=
  C10_name_length_guard listDirEnv [] 1 2 0 0x2000 3 true ⟨0, ""⟩ "n" 29
    (by decide)

/-- Claim C7: `s5fs_fillpage` consults `s5_seek_to_block` with
`alloc = false` and then: a negative seek result is propagated with the
page buffer untouched; a zero result (sparse hole) yields status `0` and a
page of `S5_BLOCK_SIZE` zero bytes; a nonzero block number yields status
`0` and the contents read from that device block. -/
theorem C7_fillpage_cases (seek : Nat → Bool → Int)
    (readBlock : Nat → List Nat) (off : Nat) (pagebuf : List Nat) :
    (seek off false < 0 →
      s5fs_fillpage seek readBlock off pagebuf = (seek off false, pagebuf)) ∧
    (seek off false = 0 →
      s5fs_fillpage seek readBlock off pagebuf
        = (0, List.replicate S5_BLOCK_SIZE 0)) ∧
    (0 < seek off false →
      s5fs_fillpage seek readBlock off pagebuf
        = (0, readBlock (seek off false).toNat)) := by
  refine ⟨fun h => ?_, fun h => ?_, fun h => ?_⟩
  · simp [s5fs_fillpage, h]
  · simp [s5fs_fillpage, h]
  · have h1 : ¬ seek off false < 0 := by omega
    have h2 : seek off false ≠ 0 := by omega
    simp [s5fs_fillpage, h1, h2]

/-- Witness for C7 at concrete seek outcomes `-7`, `0` and `5`. -/
theorem C7_fillpage_cases_witness :
    s5fs_fillpage (fun _ _ => -7) (fun b => [b]) 0 [9] = (-7, [9]) ∧
    s5fs_fillpage (fun _ _ => 0) (fun b => [b]) 0 [9]
      = (0, List.replicate S5_BLOCK_SIZE 0) ∧
    s5fs_fillpage (fun _ _ => 5) (fun b => [b]) 0 [9] = (0, [5]) :=
  ⟨(C7_fillpage_cases (fun _ _ => -7) (fun b => [b]) 0 [9]).1 (by decide),
   (C7_fillpage_cases (fun _ _ => 0) (fun b => [b]) 0 [9]).2.1 (by decide),
   (C7_fillpage_cases (fun _ _ => 5) (fun b => [b]) 0 [9]).2.2 (by decide)⟩

end Weenix
